import Mathlib

/-!
Verification development for the turn-processing state machine of the
day2 memory agent (`src/agent/day2_memory_agent.py`), with the duplicate
filter of the day1 driver loop (`src/agent/day1_chat_agent.py`) where a
claim refers to it.

The language model is a black box: every stage that consults it is
parameterised by an oracle function returning either the raw text of the
model's reply or an error (a raised exception).  Likewise the weather
HTTP fetch.  Machine-level Python values are embedded as follows:
Python `str` is `String`, a JSON value produced by `json.loads` is the
inductive `Json` below, the message objects `HumanMessage`/`AIMessage`
are `Msg` with a `Role`, and the `AgentState` TypedDict is the structure
`AgentState`.  A Python function that can raise is embedded returning
`Except String α` (the error string standing for the exception message).
-/

namespace Agent

/-- Role of a chat message: `HumanMessage` or `AIMessage`. -/
inductive Role where
  | human
  | ai
deriving DecidableEq, Repr

/-- A chat message as stored in `chat_history`. -/
structure Msg where
  role : Role
  content : String
deriving DecidableEq, Repr

/-- A JSON value, as produced by Python's `json.loads`.  Numbers are
restricted to integers (the decision payloads of this program never use
fractional numbers). -/
inductive Json where
  | null : Json
  | bool : Bool → Json
  | num : Int → Json
  | str : String → Json
  | arr : List Json → Json
  | obj : List (String × Json) → Json

/-- `AgentState`: the TypedDict of `day2_memory_agent.py`.  `tool_input`
is declared `Dict[str, str]` in the Python source, but nothing in the
code enforces that shape at runtime (`think_node` stores whatever value
`decision_dict.get("tool_input", {})` returns), so it is embedded as a
`Json` value. -/
structure AgentState where
  user_input : String
  chat_history : List Msg
  tool_name : String
  tool_input : Json
  tool_result : String
  final_answer : String

/-- `get_initial_state()`. -/
def get_initial_state : AgentState :=
  { user_input := ""
    chat_history := []
    tool_name := ""
    tool_input := .obj []
    tool_result := ""
    final_answer := "" }

/-! ### A model of `json.loads`

`think_node` feeds the model's raw reply to `json.loads`.  The parser
below covers the JSON fragment the program manipulates: `null`,
booleans, integer numbers, strings with the common escape sequences,
arrays and objects, with arbitrary surrounding whitespace.  Inputs
outside this fragment are parse failures, which in `think_node` land in
the same `except` branch as a genuine `json.JSONDecodeError`. -/

def isJsonWs (c : Char) : Bool :=
  c = ' ' || c = '\t' || c = '\n' || c = '\r'

def skipWs : List Char → List Char
  | [] => []
  | c :: cs => if isJsonWs c then skipWs cs else c :: cs

def digitVal (c : Char) : Nat := c.toNat - '0'.toNat

/-- Decimal digit test, by explicit enumeration (same set as
`Char.isDigit`). -/
def isDigitCh (c : Char) : Bool :=
  c ∈ ['0', '1', '2', '3', '4', '5', '6', '7', '8', '9']

/-- The whitespace characters Python's `str.strip()` removes. -/
def isPyWs (c : Char) : Bool :=
  c = ' ' || c = '\t' || c = '\n' || c = '\r' ||
    c = '\x0b' || c = '\x0c'

/-- Python's `str.strip()`: drop leading and trailing whitespace. -/
def pyStrip (s : String) : String :=
  String.mk (((s.data.dropWhile isPyWs).reverse.dropWhile isPyWs).reverse)

/-- Consume a run of decimal digits, returning the accumulated value and
the rest; fails when no digit is present. -/
def takeDigits : List Char → Nat → Option (Nat × List Char)
  | [], _ => none
  | c :: cs, acc =>
    if isDigitCh c then
      match takeDigits cs (acc * 10 + digitVal c) with
      | some r => some r
      | none => some (acc * 10 + digitVal c, cs)
    else
      none

/-- Parse the body of a JSON string literal after the opening quote. -/
def parseStringBody : Nat → List Char → Option (String × List Char)
  | 0, _ => none
  | _ + 1, [] => none
  | fuel + 1, c :: cs =>
    if c = '"' then
      some ("", cs)
    else if c = '\\' then
      match cs with
      | [] => none
      | e :: cs2 =>
        let esc : Option Char :=
          if e = '"' then some '"'
          else if e = '\\' then some '\\'
          else if e = '/' then some '/'
          else if e = 'n' then some '\n'
          else if e = 't' then some '\t'
          else if e = 'r' then some '\r'
          else none
        match esc with
        | none => none
        | some ch =>
          match parseStringBody fuel cs2 with
          | some (s, rest) => some (String.mk (ch :: s.toList), rest)
          | none => none
    else
      match parseStringBody fuel cs with
      | some (s, rest) => some (String.mk (c :: s.toList), rest)
      | none => none

mutual

/-- Parse one JSON value. -/
def parseVal : Nat → List Char → Option (Json × List Char)
  | 0, _ => none
  | fuel + 1, cs =>
    match skipWs cs with
    | [] => none
    | c :: cs' =>
      if c = '{' then
        match skipWs cs' with
        | '}' :: rest => some (.obj [], rest)
        | rest => parseMembers fuel rest []
      else if c = '[' then
        match skipWs cs' with
        | ']' :: rest => some (.arr [], rest)
        | rest => parseElems fuel rest []
      else if c = '"' then
        match parseStringBody fuel cs' with
        | some (s, rest) => some (.str s, rest)
        | none => none
      else if c = '-' then
        match takeDigits cs' 0 with
        | some (n, rest) => some (.num (-(n : Int)), rest)
        | none => none
      else if isDigitCh c then
        match takeDigits (c :: cs') 0 with
        | some (n, rest) => some (.num (n : Int), rest)
        | none => none
      else if c = 't' then
        match c :: cs' with
        | 't' :: 'r' :: 'u' :: 'e' :: rest => some (.bool true, rest)
        | _ => none
      else if c = 'f' then
        match c :: cs' with
        | 'f' :: 'a' :: 'l' :: 's' :: 'e' :: rest => some (.bool false, rest)
        | _ => none
      else if c = 'n' then
        match c :: cs' with
        | 'n' :: 'u' :: 'l' :: 'l' :: rest => some (.null, rest)
        | _ => none
      else
        none

/-- Parse the members of an object after `{` (first member onward). -/
def parseMembers : Nat → List Char → List (String × Json) →
    Option (Json × List Char)
  | 0, _, _ => none
  | fuel + 1, cs, acc =>
    match skipWs cs with
    | '"' :: cs' =>
      match parseStringBody fuel cs' with
      | none => none
      | some (key, rest) =>
        match skipWs rest with
        | ':' :: rest2 =>
          match parseVal fuel rest2 with
          | none => none
          | some (v, rest3) =>
            match skipWs rest3 with
            | ',' :: rest4 => parseMembers fuel rest4 (acc ++ [(key, v)])
            | '}' :: rest4 => some (.obj (acc ++ [(key, v)]), rest4)
            | _ => none
        | _ => none
    | _ => none

/-- Parse the elements of an array after `[` (first element onward). -/
def parseElems : Nat → List Char → List Json → Option (Json × List Char)
  | 0, _, _ => none
  | fuel + 1, cs, acc =>
    match parseVal fuel cs with
    | none => none
    | some (v, rest) =>
      match skipWs rest with
      | ',' :: rest2 => parseElems fuel rest2 (acc ++ [v])
      | ']' :: rest2 => some (.arr (acc ++ [v]), rest2)
      | _ => none

end

/-- `json.loads`: one JSON value, optionally surrounded by whitespace,
and nothing else.  `none` is a `json.JSONDecodeError`. -/
def loads (s : String) : Option Json :=
  match parseVal (s.length + 1) s.toList with
  | some (v, rest) => if skipWs rest = [] then some v else none
  | none => none

/-- `dict.get key default` on a parsed JSON object.  Python's
`json.loads` keeps the last occurrence of a duplicated key, so lookup
scans the reversed field list. -/
def objGetD (fields : List (String × Json)) (key : String) (dflt : Json) :
    Json :=
  match fields.reverse.find? (fun p => p.1 = key) with
  | some p => p.2
  | none => dflt

/-! ### The calculator tool

`calculator` wraps `eval(expression, {"__builtins__": None}, {})` in a
`try`/`except`.  `eval` itself is a Python builtin, external to the
repository, so its arithmetic core is modelled from the spec. -/

/-- Fuel-driven Euclidean algorithm (the first argument strictly
decreases, so fuel `a + 1` always suffices). -/
def gcdFuel : Nat → Nat → Nat → Nat
  | 0, _, b => b
  | fuel + 1, a, b => if a = 0 then b else gcdFuel fuel (b % a) a

def natGcd (a b : Nat) : Nat := gcdFuel (a + 1) a b

/-- An exact rational value, the model of the numbers `eval` computes
(`int` and, after a true division, `float`).  The denominator is kept
positive and the fraction reduced by construction. -/
structure PyNum where
  num : Int
  den : Nat
deriving DecidableEq, Repr

/-- Build a reduced `PyNum` from a numerator and a positive
denominator. -/
def mkPyNum (n : Int) (d : Nat) : PyNum :=
  if d = 0 then ⟨0, 1⟩
  else
    let g := natGcd n.natAbs d
    if g = 0 then ⟨0, 1⟩ else ⟨n / (g : Int), d / g⟩

def PyNum.ofNat (n : Nat) : PyNum := ⟨(n : Int), 1⟩

def PyNum.add (x y : PyNum) : PyNum :=
  mkPyNum (x.num * (y.den : Int) + y.num * (x.den : Int)) (x.den * y.den)

def PyNum.sub (x y : PyNum) : PyNum :=
  mkPyNum (x.num * (y.den : Int) - y.num * (x.den : Int)) (x.den * y.den)

def PyNum.mul (x y : PyNum) : PyNum :=
  mkPyNum (x.num * y.num) (x.den * y.den)

def PyNum.neg (x : PyNum) : PyNum := ⟨-x.num, x.den⟩

/-- Division; the caller has already ruled out a zero divisor. -/
def PyNum.div (x y : PyNum) : PyNum :=
  let n := x.num * (y.den : Int)
  let m := (x.den : Int) * y.num
  if m < 0 then mkPyNum (-n) (-m).toNat else mkPyNum n m.toNat

/-- Arithmetic token of the restricted expression grammar. -/
inductive ATok where
  | num : Nat → ATok
  | plus
  | minus
  | star
  | slash
  | lpar
  | rpar
deriving DecidableEq, Repr

/-- Tokenise a restricted arithmetic expression: digit runs, the four
operators, parentheses and whitespace.  Any other character makes the
expression malformed (under `eval` with empty globals a bare name raises
`NameError`, other stray characters raise `SyntaxError`; both land in
the calculator's `except` branch). -/
def opTok (c : Char) : Option ATok :=
  if c = '+' then some .plus
  else if c = '-' then some .minus
  else if c = '*' then some .star
  else if c = '/' then some .slash
  else if c = '(' then some .lpar
  else if c = ')' then some .rpar
  else none

def tokenizeArith : Nat → List Char → Option (List ATok)
  | 0, _ => none
  | _ + 1, [] => some []
  | fuel + 1, c :: cs =>
    if isJsonWs c then
      tokenizeArith fuel cs
    else if isDigitCh c then
      match takeDigits (c :: cs) 0 with
      | some (n, rest) =>
        match tokenizeArith fuel rest with
        | some ts => some (.num n :: ts)
        | none => none
      | none => none
    else
      match opTok c with
      | none => none
      | some t =>
        match tokenizeArith fuel cs with
        | some ts => some (t :: ts)
        | none => none

mutual

/-- `Modelled from the spec:` the arithmetic core of the Python builtin
`eval` (which is not part of the repository's source) on the restricted
grammar of §4.1(b): digits, `+ - * /`, parentheses, with Python's usual
precedence, left associativity, unary sign, and true division.  Values
are rationals (Python `/` is true division); division by zero is a
failure (`ZeroDivisionError`). -/
def parseExpr : Nat → List ATok → Option (PyNum × List ATok)
  | 0, _ => none
  | fuel + 1, ts =>
    match parseTerm fuel ts with
    | none => none
    | some (v, rest) => parseExprLoop fuel v rest

/-- Left-associative loop over `+`/`-`. -/
def parseExprLoop : Nat → PyNum → List ATok → Option (PyNum × List ATok)
  | 0, _, _ => none
  | fuel + 1, acc, ts =>
    match ts with
    | .plus :: rest =>
      match parseTerm fuel rest with
      | none => none
      | some (v, rest2) => parseExprLoop fuel (acc.add v) rest2
    | .minus :: rest =>
      match parseTerm fuel rest with
      | none => none
      | some (v, rest2) => parseExprLoop fuel (acc.sub v) rest2
    | _ => some (acc, ts)

/-- A term: factors joined by `*`/`/`. -/
def parseTerm : Nat → List ATok → Option (PyNum × List ATok)
  | 0, _ => none
  | fuel + 1, ts =>
    match parseFactor fuel ts with
    | none => none
    | some (v, rest) => parseTermLoop fuel v rest

/-- Left-associative loop over `*`/`/`; division by zero fails. -/
def parseTermLoop : Nat → PyNum → List ATok → Option (PyNum × List ATok)
  | 0, _, _ => none
  | fuel + 1, acc, ts =>
    match ts with
    | .star :: rest =>
      match parseFactor fuel rest with
      | none => none
      | some (v, rest2) => parseTermLoop fuel (acc.mul v) rest2
    | .slash :: rest =>
      match parseFactor fuel rest with
      | none => none
      | some (v, rest2) =>
        if v.num = 0 then none else parseTermLoop fuel (acc.div v) rest2
    | _ => some (acc, ts)

/-- A factor: optional unary sign, then a number or a parenthesised
expression. -/
def parseFactor : Nat → List ATok → Option (PyNum × List ATok)
  | 0, _ => none
  | fuel + 1, ts =>
    match ts with
    | .plus :: rest => parseFactor fuel rest
    | .minus :: rest =>
      match parseFactor fuel rest with
      | none => none
      | some (v, rest2) => some (v.neg, rest2)
    | .num n :: rest => some (PyNum.ofNat n, rest)
    | .lpar :: rest =>
      match parseExpr fuel rest with
      | none => none
      | some (v, rest2) =>
        match rest2 with
        | .rpar :: rest3 => some (v, rest3)
        | _ => none
    | _ => none

end

/-- Evaluate a restricted arithmetic expression string; `none` stands
for any exception `eval` would raise on it. -/
def evalArith (e : String) : Option PyNum :=
  match tokenizeArith (e.length + 1) e.toList with
  | none => none
  | some ts =>
    match parseExpr (ts.length + 1) ts with
    | some (v, []) => some v
    | _ => none

/-- Render an evaluation result the way the success message shows it.
An integer renders without a fractional part; Python renders a true
division's float result in decimal notation, modelled here as
numerator/denominator (no claim exercises a fractional result). -/
def renderNum (q : PyNum) : String :=
  if q.den = 1 then toString q.num
  else toString q.num ++ "/" ++ toString q.den

/-- The `calculator` tool of `day2_memory_agent.py`: evaluate the
expression with no ambient names, rendering success as
`计算结果：<expr> = <value>` and any exception as a `计算失败：` text. -/
def calculator (expression : String) : String :=
  match evalArith expression with
  | some v => "计算结果：" ++ expression ++ " = " ++ renderNum v
  | none => "计算失败：invalid expression"

/-! ### The weather tool -/

/-- The parsed fields `weather_query` reads from the weather service's
JSON reply. -/
structure WeatherResp where
  desc : String
  wtype : String
  low : String
  high : String
  fengxiang : String
  fengli : String

/-- The `weather_query` tool of `day2_memory_agent.py`, parameterised by
the external HTTP fetch (`requests.get` + `response.json()` + field
access, all inside the `try`): `.error` covers any exception that chain
raises (network error, non-2xx status, JSON parse error, missing key).
The tool itself never raises: every failure becomes a text. -/
def weather_query (fetch : String → Except String WeatherResp)
    (city : String) : String :=
  match fetch city with
  | .error e => "天气查询异常：" ++ e
  | .ok d =>
    if d.desc ≠ "success" then "查询失败：" ++ d.desc
    else
      city ++ "今日天气：" ++ d.wtype ++ "，气温" ++ d.low ++ "~" ++
        d.high ++ "，风向" ++ d.fengxiang ++ "，风力" ++ d.fengli

/-! ### Tool registry and graph nodes -/

/-- A registered capability: `tools[name].invoke(tool_input)`.  `.error`
is an exception raised by the invocation (argument validation or the
capability body). -/
def Cap : Type := Json → Except String String

/-- Extract the single string argument a one-parameter langchain tool
expects from `invoke`'s input: either the bare string, or a mapping
holding the named key with a string value; anything else raises a
validation error inside `invoke`. -/
def capArg (input : Json) (key : String) : Option String :=
  match input with
  | .str s => some s
  | .obj fields =>
    match fields.reverse.find? (fun p => p.1 = key) with
    | some (_, .str s) => some s
    | _ => none
  | _ => none

/-- The `tools` mapping of `day2_memory_agent.py`:
`{"weather_query": weather_query, "calculator": calculator}`. -/
def tools (fetch : String → Except String WeatherResp) :
    List (String × Cap) :=
  [("weather_query", fun input =>
      match capArg input "city" with
      | some city => .ok (weather_query fetch city)
      | none => .error "tool argument validation failed"),
   ("calculator", fun input =>
      match capArg input "expression" with
      | some e => .ok (calculator e)
      | none => .error "tool argument validation failed")]

/-- Dictionary lookup `tools[tool_name]` (with `tool_name in tools` as
membership). -/
def lookupCap (reg : List (String × Cap)) (name : String) : Option Cap :=
  (reg.find? (fun p => p.1 = name)).map Prod.snd

/-- The default decision dict used by `think_node`'s `except` branch:
`{"tool_name": "", "tool_input": {}}`. -/
def defaultDecision : Json :=
  .obj [("tool_name", .str ""), ("tool_input", .obj [])]

/-- `think_node`, parameterised by the decision model call.  The oracle
receives the stripped user input (the prompt built in `think_node`
contains only the fixed system message and `HumanMessage(user_input)`;
it has no placeholder, so `chat_history` never reaches the model here)
and returns the reply's raw content or an exception.  The `try` block
covers the model call and `json.loads`; the later `.get`/`.strip`
accesses are outside it, so a non-object payload or a non-string
`tool_name` value raises out of the node (`AttributeError`). -/
def think_node (llm : String → Except String String) (s : AgentState) :
    Except String AgentState :=
  let user_input := pyStrip s.user_input
  if user_input = "" then
    .ok { s with tool_name := "", tool_input := .obj [] }
  else
    let decision_dict : Json :=
      match llm user_input with
      | .error _ => defaultDecision
      | .ok content =>
        match loads (pyStrip content) with
        | some v => v
        | none => defaultDecision
    match decision_dict with
    | .obj fields =>
      match objGetD fields "tool_name" (.str "") with
      | .str tn =>
        .ok { s with tool_name := pyStrip tn
                     tool_input := objGetD fields "tool_input" (.obj []) }
      | _ => .error "AttributeError: object has no attribute strip"
    | _ => .error "AttributeError: object has no attribute get"

/-- `tool_node` over an arbitrary registry (the source's registry is the
global `tools` dict; the node's own logic only looks the name up and
guards the invocation). -/
def tool_nodeWith (reg : List (String × Cap)) (s : AgentState) :
    AgentState :=
  match lookupCap reg s.tool_name with
  | none => { s with tool_result := "未知工具：" ++ s.tool_name }
  | some cap =>
    match cap s.tool_input with
    | .ok r => { s with tool_result := r }
    | .error e => { s with tool_result := "工具执行出错：" ++ e }

/-- `tool_node` with the program's registry. -/
def tool_node (fetch : String → Except String WeatherResp)
    (s : AgentState) : AgentState :=
  tool_nodeWith (tools fetch) s

/-- The fixed clarification reply `answer_node` gives on empty input. -/
def clarifyAnswer : String :=
  "请问你有什么具体问题需要帮助？比如查询某个城市的天气，或执行数学计算。"

/-- `answer_node`, parameterised by the answer model call.  The oracle
receives the stripped user input, the tool-result line's payload
(`tool_result` or `无` when empty, as the prompt renders it) and the
full `chat_history`; an `.error` is an exception from the model call,
which this node does not catch.  On success with non-empty input the
node appends `HumanMessage(user_input)` (stripped) and
`AIMessage(final_answer)` to a copy of the history. -/
def answer_node (llm : String → String → List Msg → Except String String)
    (s : AgentState) : Except String AgentState :=
  let user_input := pyStrip s.user_input
  if user_input = "" then
    .ok { s with final_answer := clarifyAnswer }
  else
    match llm user_input
        (if s.tool_result = "" then "无" else s.tool_result)
        s.chat_history with
    | .error e => .error e
    | .ok ans =>
      .ok { s with final_answer := ans
                   chat_history := s.chat_history ++
                     [⟨.human, user_input⟩, ⟨.ai, ans⟩] }

/-- `should_call_tool`: route on the stripped `tool_name` only. -/
def should_call_tool (s : AgentState) : String :=
  if pyStrip s.tool_name = "" then "answer" else "tool"

/-- The compiled graph from `build_agent_graph`, run up to (but not
including) the answer node: entry point `think`, then the conditional
edge `should_call_tool`, then — when routed there — `tool`, whose
outgoing edge leads unconditionally to `answer`. -/
def run_to_answer (dllm : String → Except String String)
    (fetch : String → Except String WeatherResp) (s : AgentState) :
    Except String AgentState :=
  match think_node dllm s with
  | .error e => .error e
  | .ok s1 =>
    .ok (if should_call_tool s1 = "tool" then tool_node fetch s1 else s1)

/-- One full graph invocation: `think → (tool →)? answer`. -/
def run_graph (dllm : String → Except String String)
    (allm : String → String → List Msg → Except String String)
    (fetch : String → Except String WeatherResp) (s : AgentState) :
    Except String AgentState :=
  match run_to_answer dllm fetch s with
  | .error e => .error e
  | .ok s2 => answer_node allm s2

/-- `Modelled from the spec:` the Checkpoint Store around one turn.  The
store itself (`MemorySaver`) and the graph executor live in the
langgraph library, not in this repository's source, so their commit
behaviour follows the spec (§4.5, §7): the turn's resulting state is
committed only when the turn runs to completion; a turn in which a node
raises commits nothing and leaves the stored snapshot unchanged.  The
driver loop carries only `chat_history` forward and resets the per-turn
fields before each turn (source lines 337, 346, 352–355). -/
def process_turn (dllm : String → Except String String)
    (allm : String → String → List Msg → Except String String)
    (fetch : String → Except String WeatherResp)
    (store : Option AgentState) (input : String) : Option AgentState :=
  let hist := (store.getD get_initial_state).chat_history
  let st := { get_initial_state with chat_history := hist
                                     user_input := input }
  match run_graph dllm allm fetch st with
  | .error _ => store
  | .ok s' => some s'

/-- A sequence of turns over one session: each turn starts from the
previous turn's committed `chat_history`; a turn that raises aborts the
run (`.error`). -/
def run_turns (dllm : String → Except String String)
    (allm : String → String → List Msg → Except String String)
    (fetch : String → Except String WeatherResp) (hist : List Msg) :
    List String → Except String (List Msg)
  | [] => .ok hist
  | i :: rest =>
    match run_graph dllm allm fetch
        { get_initial_state with chat_history := hist
                                 user_input := i } with
    | .error e => .error e
    | .ok s' => run_turns dllm allm fetch s'.chat_history rest

/-- The day1 driver loop's history update (`multi_round_chat`, lines
103–108 of `day1_chat_agent.py`): the assistant reply is appended only
when no `AIMessage` with identical content is already present. -/
def day1_append_reply (hist : List Msg) (reply : String) : List Msg :=
  if hist.any (fun m => m.role = .ai && m.content = reply) then hist
  else hist ++ [⟨.ai, reply⟩]

/-! ### Shape lemmas for the three nodes -/

/-- A successful `think_node` only rewrites `tool_name` and
`tool_input`. -/
lemma think_node_ok_shape (llm : String → Except String String)
    (s s' : AgentState) (h : think_node llm s = .ok s') :
    ∃ t j, s' = { s with tool_name := t, tool_input := j } := by
  unfold think_node at h
  by_cases hc : pyStrip s.user_input = ""
  · simp only [hc, if_pos] at h
    exact ⟨"", .obj [], (Except.ok.inj h).symm⟩
  · simp only [hc, if_neg, reduceIte] at h
    split at h
    · split at h
      · exact ⟨_, _, (Except.ok.inj h).symm⟩
      all_goals cases h
    all_goals cases h

/-- `tool_nodeWith` only rewrites `tool_result`. -/
lemma tool_nodeWith_shape (reg : List (String × Cap)) (s : AgentState) :
    ∃ r, tool_nodeWith reg s = { s with tool_result := r } := by
  unfold tool_nodeWith
  split
  · exact ⟨_, rfl⟩
  · split
    · exact ⟨_, rfl⟩
    · exact ⟨_, rfl⟩

/-- The two outcomes of a successful `answer_node`: the empty-input
short circuit, or a model answer with the user/assistant pair appended
to the history. -/
lemma answer_node_ok_cases
    (llm : String → String → List Msg → Except String String)
    (s s' : AgentState) (h : answer_node llm s = .ok s') :
    (pyStrip s.user_input = "" ∧
      s' = { s with final_answer := clarifyAnswer }) ∨
    (pyStrip s.user_input ≠ "" ∧ ∃ ans,
      llm (pyStrip s.user_input)
          (if s.tool_result = "" then "无" else s.tool_result)
          s.chat_history = .ok ans ∧
      s' = { s with final_answer := ans
                    chat_history := s.chat_history ++
                      [⟨.human, pyStrip s.user_input⟩, ⟨.ai, ans⟩] }) := by
  unfold answer_node at h
  by_cases hc : pyStrip s.user_input = ""
  · simp only [hc, if_pos] at h
    exact .inl ⟨hc, (Except.ok.inj h).symm⟩
  · simp only [hc, if_neg, reduceIte] at h
    refine .inr ⟨hc, ?_⟩
    split at h
    · cases h
    · exact ⟨_, by assumption, (Except.ok.inj h).symm⟩

/-- Branch lemma: unknown tool name. -/
lemma tool_nodeWith_unknown (reg : List (String × Cap)) (s : AgentState)
    (h : lookupCap reg s.tool_name = none) :
    tool_nodeWith reg s =
      { s with tool_result := "未知工具：" ++ s.tool_name } := by
  unfold tool_nodeWith
  rw [h]

/-- Branch lemma: the capability raises. -/
lemma tool_nodeWith_capError (reg : List (String × Cap)) (s : AgentState)
    (cap : Cap) (e : String) (h1 : lookupCap reg s.tool_name = some cap)
    (h2 : cap s.tool_input = .error e) :
    tool_nodeWith reg s =
      { s with tool_result := "工具执行出错：" ++ e } := by
  unfold tool_nodeWith
  rw [h1]
  simp only [h2]

/-- Branch lemma: the capability succeeds. -/
lemma tool_nodeWith_capOk (reg : List (String × Cap)) (s : AgentState)
    (cap : Cap) (r : String) (h1 : lookupCap reg s.tool_name = some cap)
    (h2 : cap s.tool_input = .ok r) :
    tool_nodeWith reg s = { s with tool_result := r } := by
  unfold tool_nodeWith
  rw [h1]
  simp only [h2]

/-- A successful pre-answer pipeline run only rewrites the three tool
fields. -/
lemma run_to_answer_ok_state (dllm : String → Except String String)
    (fetch : String → Except String WeatherResp) (s s2 : AgentState)
    (h : run_to_answer dllm fetch s = .ok s2) :
    ∃ t j r,
      s2 = { s with tool_name := t, tool_input := j, tool_result := r } := by
  unfold run_to_answer at h
  split at h
  · cases h
  · rename_i s1 hthink
    obtain ⟨t, j, rfl⟩ := think_node_ok_shape _ _ _ hthink
    cases Except.ok.inj h
    by_cases hroute :
        should_call_tool { s with tool_name := t, tool_input := j } = "tool"
    · rw [if_pos hroute]
      obtain ⟨r, hr⟩ :=
        tool_nodeWith_shape (tools fetch)
          { s with tool_name := t, tool_input := j }
      exact ⟨t, j, r, hr⟩
    · rw [if_neg hroute]
      exact ⟨t, j, s.tool_result, rfl⟩

/-- Unfolding lemma: once `think` has produced a state, the rest of the
graph is the conditional tool stage followed unconditionally by the
answer stage. -/
lemma run_graph_after_think (dllm : String → Except String String)
    (allm : String → String → List Msg → Except String String)
    (fetch : String → Except String WeatherResp) (s s1 : AgentState)
    (h : think_node dllm s = .ok s1) :
    run_graph dllm allm fetch s =
      answer_node allm
        (if should_call_tool s1 = "tool" then tool_node fetch s1 else s1) := by
  unfold run_graph run_to_answer
  rw [h]

/-- A successful turn on a non-blank input appends exactly the
user/assistant pair of that turn to the history. -/
lemma run_graph_ok_append (dllm : String → Except String String)
    (allm : String → String → List Msg → Except String String)
    (fetch : String → Except String WeatherResp) (s s' : AgentState)
    (hne : pyStrip s.user_input ≠ "")
    (h : run_graph dllm allm fetch s = .ok s') :
    ∃ ans, s'.chat_history = s.chat_history ++
      [⟨.human, pyStrip s.user_input⟩, ⟨.ai, ans⟩] := by
  unfold run_graph at h
  split at h
  · cases h
  · rename_i s2 hrta
    obtain ⟨t, j, r, rfl⟩ := run_to_answer_ok_state _ _ _ _ hrta
    rcases answer_node_ok_cases _ _ _ h with ⟨he, _⟩ | ⟨_, ans, _, rfl⟩
    · exact absurd he hne
    · exact ⟨ans, rfl⟩

/-- Interleaved user/assistant pairs have twice as many entries as
turns. -/
lemma pairs_length (l : List (String × String)) :
    (l.flatMap fun p => [Msg.mk .human p.1, Msg.mk .ai p.2]).length =
      2 * l.length := by
  induction l with
  | nil => simp
  | cons p t ih => simp [ih]; omega

/-- Whitespace characters are not alphabetic. -/
lemma ws_not_alpha (c : Char) (h : isJsonWs c = true) :
    c.isAlpha = false := by
  simp only [isJsonWs, Bool.or_eq_true, decide_eq_true_eq] at h
  rcases h with ((rfl | rfl) | rfl) | rfl <;> decide

/-- Digit characters are not alphabetic. -/
lemma digitCh_not_alpha (c : Char) (h : isDigitCh c = true) :
    c.isAlpha = false := by
  simp only [isDigitCh, List.mem_cons, List.not_mem_nil, or_false,
    decide_eq_true_eq] at h
  rcases h with rfl | rfl | rfl | rfl | rfl | rfl | rfl | rfl | rfl | rfl <;>
    decide

/-- Operator characters are not alphabetic. -/
lemma opTok_not_alpha (c : Char) (t : ATok) (h : opTok c = some t) :
    c.isAlpha = false := by
  unfold opTok at h
  split_ifs at h with h1 h2 h3 h4 h5 h6
  · subst h1; decide
  · subst h2; decide
  · subst h3; decide
  · subst h4; decide
  · subst h5; decide
  · subst h6; decide

/-- `takeDigits` consumes a prefix of digit characters. -/
lemma takeDigits_split : ∀ (l : List Char) (acc n : Nat) (rest : List Char),
    takeDigits l acc = some (n, rest) →
    ∃ pre, l = pre ++ rest ∧ ∀ c ∈ pre, isDigitCh c = true := by
  intro l
  induction l with
  | nil => intro acc n rest h; simp [takeDigits] at h
  | cons c cs ih =>
    intro acc n rest h
    unfold takeDigits at h
    by_cases hd : isDigitCh c = true
    · simp only [hd, if_true] at h
      cases hm : takeDigits cs (acc * 10 + digitVal c) with
      | some r =>
        rw [hm] at h
        cases Option.some.inj h
        obtain ⟨pre, hpre, hall⟩ := ih _ _ _ hm
        refine ⟨c :: pre, by simp [hpre], ?_⟩
        intro x hx
        rcases List.mem_cons.mp hx with rfl | hx'
        · exact hd
        · exact hall _ hx'
      | none =>
        rw [hm] at h
        cases Option.some.inj h
        exact ⟨[c], rfl, by simpa using hd⟩
    · simp [hd] at h

/-- Every character a successful tokenisation consumed is whitespace, a
digit or an operator — never alphabetic: the restricted grammar leaves
no way to mention a name. -/
lemma tokenizeArith_no_alpha : ∀ (fuel : Nat) (cs : List Char)
    (ts : List ATok), tokenizeArith fuel cs = some ts →
    ∀ c ∈ cs, c.isAlpha = false := by
  intro fuel
  induction fuel with
  | zero => intro cs ts h; simp [tokenizeArith] at h
  | succ fuel ih =>
    intro cs ts h
    match cs with
    | [] => intro c hc; cases hc
    | c :: cs' =>
      unfold tokenizeArith at h
      by_cases hws : isJsonWs c = true
      · simp only [hws, if_true] at h
        intro x hx
        rcases List.mem_cons.mp hx with rfl | hx'
        · exact ws_not_alpha _ hws
        · exact ih _ _ h _ hx'
      · simp only [hws] at h
        rw [if_neg (by simp [hws])] at h
        by_cases hd : isDigitCh c = true
        · simp only [hd, if_true] at h
          split at h
          · rename_i n rest htd
            split at h
            · rename_i ts2 htk
              obtain ⟨pre, hpre, hall⟩ := takeDigits_split _ _ _ _ htd
              intro x hx
              rw [hpre] at hx
              rcases List.mem_append.mp hx with hx' | hx'
              · exact digitCh_not_alpha _ (hall _ hx')
              · exact ih _ _ htk _ hx'
            · cases h
          · cases h
        · rw [if_neg (by simp [hd])] at h
          split at h
          · cases h
          · rename_i t hop
            split at h
            · rename_i ts2 htk
              intro x hx
              rcases List.mem_cons.mp hx with rfl | hx'
              · exact opTok_not_alpha _ _ hop
              · exact ih _ _ htk _ hx'
            · cases h

/-! ### Concrete oracles and states used by witnesses and
counterexamples -/

/-- A decision model that always fails (exception in the `try`). -/
def llmNone : String → Except String String :=
  fun _ => .error "api unavailable"

/-- An answer model that always replies `好的`. -/
def llmAnswerA : String → String → List Msg → Except String String :=
  fun _ _ _ => .ok "好的"

/-- An answer model whose call always raises. -/
def llmAnswerFail : String → String → List Msg → Except String String :=
  fun _ _ _ => .error "model call failed"

/-- A weather fetch that always raises (network down). -/
def fetchFail : String → Except String WeatherResp :=
  fun _ => .error "network unreachable"

/-- A decision model that picks the calculator on a malformed
expression. -/
def llmCalcBad : String → Except String String :=
  fun _ => .ok "\x7b\"tool_name\":\"calculator\",\"tool_input\":\x7b\"expression\":\"1+\"\x7d\x7d"

/-- A decision model that returns a syntactically valid decision naming
a tool outside the registry. -/
def llmFoo : String → Except String String :=
  fun _ => .ok "\x7b\"tool_name\":\"foo\",\"tool_input\":\x7b\x7d\x7d"

/-- A decision model whose reply parses but carries a number where
`tool_name` should hold a string. -/
def llmBadType : String → Except String String :=
  fun _ => .ok "\x7b\"tool_name\": 1, \"tool_input\": \x7b\x7d\x7d"

/-- A one-entry registry whose capability always raises. -/
def regBoom : List (String × Cap) :=
  [("boom", fun _ => .error "kaboom")]

/-- A turn state holding the input `hi` and nothing else. -/
def stHi : AgentState := { get_initial_state with user_input := "hi" }

/-! ### Claims -/

/-- C6: for every `tool_name` and `tool_input`, the Tool Execution
Stage never raises outward (it is a total function of the state): an
unregistered `tool_name` yields the unknown-tool text in `tool_result`,
an exception raised by the invoked capability is caught and rendered as
the failure text, a capability result is stored verbatim, and whenever
routing selects the tool stage the turn still proceeds to the answer
stage. -/
theorem C6_tool_stage_total :
    (∀ (reg : List (String × Cap)) (s : AgentState),
      lookupCap reg s.tool_name = none →
        (tool_nodeWith reg s).tool_result = "未知工具：" ++ s.tool_name) ∧
    (∀ (reg : List (String × Cap)) (s : AgentState) (cap : Cap)
        (e : String),
      lookupCap reg s.tool_name = some cap → cap s.tool_input = .error e →
        (tool_nodeWith reg s).tool_result = "工具执行出错：" ++ e) ∧
    (∀ (reg : List (String × Cap)) (s : AgentState) (cap : Cap)
        (r : String),
      lookupCap reg s.tool_name = some cap → cap s.tool_input = .ok r →
        (tool_nodeWith reg s).tool_result = r) ∧
    (∀ (dllm : String → Except String String)
        (allm : String → String → List Msg → Except String String)
        (fetch : String → Except String WeatherResp) (s s1 : AgentState),
      think_node dllm s = .ok s1 → should_call_tool s1 = "tool" →
        run_graph dllm allm fetch s =
          answer_node allm (tool_node fetch s1)) := by
  refine ⟨?_, ?_, ?_, ?_⟩
  · intro reg s h
    rw [tool_nodeWith_unknown reg s h]
  · intro reg s cap e h1 h2
    rw [tool_nodeWith_capError reg s cap e h1 h2]
  · intro reg s cap r h1 h2
    rw [tool_nodeWith_capOk reg s cap r h1 h2]
  · intro dllm allm fetch s s1 h hroute
    rw [run_graph_after_think dllm allm fetch s s1 h, if_pos hroute]

/-- Witness for C6 at concrete inputs, among them the spec's own
malformed-arithmetic example `1+`. -/
theorem C6_witness :
    (tool_nodeWith regBoom
        { get_initial_state with tool_name := "nope" }).tool_result =
      "未知工具：" ++ "nope" ∧
    (tool_nodeWith regBoom
        { get_initial_state with tool_name := "boom" }).tool_result =
      "工具执行出错：" ++ "kaboom" ∧
    (tool_nodeWith (tools fetchFail)
        { get_initial_state with
            tool_name := "calculator",
            tool_input := .obj [("expression", .str "1+")] }).tool_result =
      "计算失败：invalid expression" ∧
    run_graph llmCalcBad llmAnswerA fetchFail
        { get_initial_state with user_input := "1+" } =
      answer_node llmAnswerA (tool_node fetchFail
        { get_initial_state with
            user_input := "1+",
            tool_name := "calculator",
            tool_input := .obj [("expression", .str "1+")] }) :=
  ⟨C6_tool_stage_total.1 regBoom _ rfl,
   C6_tool_stage_total.2.1 regBoom _ _ "kaboom" rfl rfl,
   C6_tool_stage_total.2.2.1 (tools fetchFail) _
     (fun input =>
       match capArg input "expression" with
       | some e => .ok (calculator e)
       | none => .error "tool argument validation failed") _ rfl rfl,
   C6_tool_stage_total.2.2.2 llmCalcBad llmAnswerA fetchFail _ _ rfl rfl⟩

/-- C9: routing after the Decision Stage is a pure function of
`tool_name` alone — a non-blank stripped `tool_name` routes to the tool
stage and a blank one directly to the answer stage — and after `think`
the rest of the turn is exactly the routed stage followed by the answer
stage (the tool stage always proceeds to it). -/
theorem C9_routing_pure_function :
    (∀ s1 s2 : AgentState, s1.tool_name = s2.tool_name →
      should_call_tool s1 = should_call_tool s2) ∧
    (∀ s : AgentState,
      should_call_tool s = "tool" ↔ pyStrip s.tool_name ≠ "") ∧
    (∀ s : AgentState,
      should_call_tool s = "answer" ↔ pyStrip s.tool_name = "") ∧
    (∀ (dllm : String → Except String String)
        (allm : String → String → List Msg → Except String String)
        (fetch : String → Except String WeatherResp) (s s1 : AgentState),
      think_node dllm s = .ok s1 →
        run_graph dllm allm fetch s =
          answer_node allm
            (if should_call_tool s1 = "tool" then tool_node fetch s1
             else s1)) := by
  refine ⟨?_, ?_, ?_, ?_⟩
  · intro s1 s2 h
    unfold should_call_tool
    rw [h]
  · intro s
    unfold should_call_tool
    by_cases h : pyStrip s.tool_name = "" <;> simp [h]
  · intro s
    unfold should_call_tool
    by_cases h : pyStrip s.tool_name = "" <;> simp [h]
  · exact fun dllm allm fetch s s1 h =>
      run_graph_after_think dllm allm fetch s s1 h

/-- Witness for C9 at concrete states: a blank and a non-blank
`tool_name`, and one full run routed through the tool stage. -/
theorem C9_witness :
    should_call_tool { get_initial_state with tool_name := " " } =
      should_call_tool { stHi with tool_name := " " } ∧
    (should_call_tool { get_initial_state with tool_name := "calculator" } =
        "tool" ↔ pyStrip "calculator" ≠ "") ∧
    (should_call_tool { get_initial_state with tool_name := "  " } =
        "answer" ↔ pyStrip "  " = "") ∧
    run_graph llmCalcBad llmAnswerA fetchFail
        { get_initial_state with user_input := "1+" } =
      answer_node llmAnswerA
        (if should_call_tool
              { get_initial_state with
                  user_input := "1+",
                  tool_name := "calculator",
                  tool_input := .obj [("expression", .str "1+")] } = "tool"
         then tool_node fetchFail
              { get_initial_state with
                  user_input := "1+",
                  tool_name := "calculator",
                  tool_input := .obj [("expression", .str "1+")] }
         else { get_initial_state with
                  user_input := "1+",
                  tool_name := "calculator",
                  tool_input := .obj [("expression", .str "1+")] }) :=
  ⟨C9_routing_pure_function.1 _ _ rfl,
   C9_routing_pure_function.2.1 _,
   C9_routing_pure_function.2.2.1 _,
   C9_routing_pure_function.2.2.2 llmCalcBad llmAnswerA fetchFail _ _ rfl⟩

/-- C10: each stage writes only its own fields — the Decision Stage
only `tool_name`/`tool_input`, the Tool Execution Stage only
`tool_result`, and Answer Synthesis alone writes `chat_history` and
`final_answer`; everything else is preserved. -/
theorem C10_frame_conditions :
    (∀ (llm : String → Except String String) (s s' : AgentState),
      think_node llm s = .ok s' →
        s'.user_input = s.user_input ∧ s'.chat_history = s.chat_history ∧
        s'.tool_result = s.tool_result ∧
        s'.final_answer = s.final_answer) ∧
    (∀ (reg : List (String × Cap)) (s : AgentState),
      (tool_nodeWith reg s).user_input = s.user_input ∧
      (tool_nodeWith reg s).chat_history = s.chat_history ∧
      (tool_nodeWith reg s).tool_name = s.tool_name ∧
      (tool_nodeWith reg s).tool_input = s.tool_input ∧
      (tool_nodeWith reg s).final_answer = s.final_answer) ∧
    (∀ (llm : String → String → List Msg → Except String String)
        (s s' : AgentState),
      answer_node llm s = .ok s' →
        s'.user_input = s.user_input ∧ s'.tool_name = s.tool_name ∧
        s'.tool_input = s.tool_input ∧
        s'.tool_result = s.tool_result) := by
  refine ⟨?_, ?_, ?_⟩
  · intro llm s s' h
    obtain ⟨t, j, rfl⟩ := think_node_ok_shape llm s s' h
    exact ⟨rfl, rfl, rfl, rfl⟩
  · intro reg s
    obtain ⟨r, hr⟩ := tool_nodeWith_shape reg s
    rw [hr]
    exact ⟨rfl, rfl, rfl, rfl, rfl⟩
  · intro llm s s' h
    rcases answer_node_ok_cases llm s s' h with ⟨_, rfl⟩ | ⟨_, ans, _, rfl⟩
    · exact ⟨rfl, rfl, rfl, rfl⟩
    · exact ⟨rfl, rfl, rfl, rfl⟩

/-- Witness for C10: one concrete successful run of each stage. -/
theorem C10_witness :
    think_node llmFoo stHi =
      .ok { stHi with tool_name := "foo", tool_input := .obj [] } ∧
    (({ stHi with
          tool_name := "foo",
          tool_input := .obj [] } : AgentState).user_input =
        stHi.user_input ∧
      ({ stHi with
          tool_name := "foo",
          tool_input := .obj [] } : AgentState).chat_history =
        stHi.chat_history ∧
      ({ stHi with
          tool_name := "foo",
          tool_input := .obj [] } : AgentState).tool_result =
        stHi.tool_result ∧
      ({ stHi with
          tool_name := "foo",
          tool_input := .obj [] } : AgentState).final_answer =
        stHi.final_answer) ∧
    ((tool_nodeWith regBoom { stHi with tool_name := "boom" }).user_input =
        ({ stHi with tool_name := "boom" } : AgentState).user_input ∧
      (tool_nodeWith regBoom
          { stHi with tool_name := "boom" }).chat_history =
        ({ stHi with tool_name := "boom" } : AgentState).chat_history ∧
      (tool_nodeWith regBoom { stHi with tool_name := "boom" }).tool_name =
        ({ stHi with tool_name := "boom" } : AgentState).tool_name ∧
      (tool_nodeWith regBoom
          { stHi with tool_name := "boom" }).tool_input =
        ({ stHi with tool_name := "boom" } : AgentState).tool_input ∧
      (tool_nodeWith regBoom
          { stHi with tool_name := "boom" }).final_answer =
        ({ stHi with tool_name := "boom" } : AgentState).final_answer) ∧
    answer_node llmAnswerA stHi =
      .ok { stHi with
              final_answer := "好的",
              chat_history := [⟨.human, "hi"⟩, ⟨.ai, "好的"⟩] } ∧
    (({ stHi with
          final_answer := "好的",
          chat_history :=
            [⟨.human, "hi"⟩, ⟨.ai, "好的"⟩] } : AgentState).user_input =
        stHi.user_input ∧
      ({ stHi with
          final_answer := "好的",
          chat_history :=
            [⟨.human, "hi"⟩, ⟨.ai, "好的"⟩] } : AgentState).tool_name =
        stHi.tool_name ∧
      ({ stHi with
          final_answer := "好的",
          chat_history :=
            [⟨.human, "hi"⟩, ⟨.ai, "好的"⟩] } : AgentState).tool_input =
        stHi.tool_input ∧
      ({ stHi with
          final_answer := "好的",
          chat_history :=
            [⟨.human, "hi"⟩, ⟨.ai, "好的"⟩] } : AgentState).tool_result =
        stHi.tool_result) :=
  ⟨rfl,
   C10_frame_conditions.1 llmFoo stHi _ rfl,
   C10_frame_conditions.2.1 regBoom { stHi with tool_name := "boom" },
   rfl,
   C10_frame_conditions.2.2 llmAnswerA stHi _ rfl⟩

/-- A decision model whose reply is not JSON at all. -/
def llmJunk : String → Except String String := fun _ => .ok "not json"

/-- A decision model whose reply is the empty JSON object. -/
def llmEmptyObj : String → Except String String := fun _ => .ok "\x7b\x7d"

/-- A decision model whose reply parses to a bare number. -/
def llmNum : String → Except String String := fun _ => .ok "5"

/-- A stored checkpoint holding one completed exchange. -/
def storeAB : Option AgentState :=
  some { get_initial_state with
           chat_history := [⟨.human, "早"⟩, ⟨.ai, "你好"⟩] }

/-- C7: a blank (empty or whitespace-only) `user_input` short-circuits
both model-consulting stages — the Decision Stage returns the empty
decision and Answer Synthesis the fixed clarification string, neither
result depending on the model oracles — and the whole turn leaves
`chat_history` untouched. -/
theorem C7_blank_input_short_circuit :
    (∀ (dllm : String → Except String String) (s : AgentState),
      pyStrip s.user_input = "" →
        think_node dllm s =
          .ok { s with tool_name := "", tool_input := .obj [] }) ∧
    (∀ (allm : String → String → List Msg → Except String String)
        (s : AgentState),
      pyStrip s.user_input = "" →
        answer_node allm s =
          .ok { s with final_answer := clarifyAnswer }) ∧
    (∀ (dllm1 dllm2 : String → Except String String)
        (allm1 allm2 : String → String → List Msg → Except String String)
        (fetch1 fetch2 : String → Except String WeatherResp)
        (store : Option AgentState) (input : String),
      pyStrip input = "" →
        process_turn dllm1 allm1 fetch1 store input =
          process_turn dllm2 allm2 fetch2 store input ∧
        process_turn dllm1 allm1 fetch1 store input =
          some { get_initial_state with
                   chat_history :=
                     (store.getD get_initial_state).chat_history,
                   user_input := input,
                   final_answer := clarifyAnswer }) := by
  have hthink : ∀ (dllm : String → Except String String) (s : AgentState),
      pyStrip s.user_input = "" →
      think_node dllm s =
        .ok { s with tool_name := "", tool_input := .obj [] } := by
    intro dllm s h
    unfold think_node
    simp [h]
  have hanswer :
      ∀ (allm : String → String → List Msg → Except String String)
        (s : AgentState),
      pyStrip s.user_input = "" →
      answer_node allm s = .ok { s with final_answer := clarifyAnswer } := by
    intro allm s h
    unfold answer_node
    simp [h]
  refine ⟨hthink, hanswer, ?_⟩
  intro dllm1 dllm2 allm1 allm2 fetch1 fetch2 store input h
  have key : ∀ (dllm : String → Except String String)
      (allm : String → String → List Msg → Except String String)
      (fetch : String → Except String WeatherResp),
      process_turn dllm allm fetch store input =
        some { get_initial_state with
                 chat_history := (store.getD get_initial_state).chat_history,
                 user_input := input,
                 final_answer := clarifyAnswer } := by
    intro dllm allm fetch
    have hpt : process_turn dllm allm fetch store input =
        match run_graph dllm allm fetch
            { get_initial_state with
                chat_history := (store.getD get_initial_state).chat_history,
                user_input := input } with
        | .error _ => store
        | .ok s' => some s' := rfl
    rw [hpt,
      run_graph_after_think dllm allm fetch _ _ (hthink dllm _ h),
      if_neg (by
        unfold should_call_tool
        simp [show pyStrip "" = "" from rfl])]
    rw [hanswer allm _ h]
    rfl
  exact ⟨(key dllm1 allm1 fetch1).trans (key dllm2 allm2 fetch2).symm,
    key dllm1 allm1 fetch1⟩

/-- Witness for C7: a whitespace-only input with disagreeing oracles —
the always-failing answer model still yields the committed
clarification turn, so no model was consulted. -/
theorem C7_witness :
    pyStrip "  " = "" ∧
    think_node llmFoo { get_initial_state with user_input := "  " } =
      .ok { get_initial_state with user_input := "  " } ∧
    answer_node llmAnswerFail
        { get_initial_state with user_input := "  " } =
      .ok { get_initial_state with
              user_input := "  ",
              final_answer := clarifyAnswer } ∧
    process_turn llmFoo llmAnswerFail fetchFail storeAB "  " =
      process_turn llmNone llmAnswerA fetchFail storeAB "  " ∧
    process_turn llmFoo llmAnswerFail fetchFail storeAB "  " =
      some { get_initial_state with
               chat_history := [⟨.human, "早"⟩, ⟨.ai, "你好"⟩],
               user_input := "  ",
               final_answer := clarifyAnswer } :=
  ⟨rfl,
   C7_blank_input_short_circuit.1 llmFoo _ rfl,
   C7_blank_input_short_circuit.2.1 llmAnswerFail _ rfl,
   (C7_blank_input_short_circuit.2.2 llmFoo llmNone llmAnswerFail
     llmAnswerA fetchFail fetchFail storeAB "  " rfl).1,
   (C7_blank_input_short_circuit.2.2 llmFoo llmNone llmAnswerFail
     llmAnswerA fetchFail fetchFail storeAB "  " rfl).2⟩

/-- C2: an exception in Answer Synthesis is not swallowed — the turn
aborts, the Checkpoint Store's snapshot for the session is unchanged,
and the in-flight state that reached the answer stage still carries the
pre-turn history (the speculative user entry was never added), so the
persisted history is exactly what it was before the failed turn. -/
theorem C2_answer_failure_preserves_checkpoint :
    ∀ (dllm : String → Except String String)
      (allm : String → String → List Msg → Except String String)
      (fetch : String → Except String WeatherResp)
      (store : Option AgentState) (input : String) (s2 : AgentState)
      (e : String),
      run_to_answer dllm fetch
          { get_initial_state with
              chat_history := (store.getD get_initial_state).chat_history,
              user_input := input } = .ok s2 →
      answer_node allm s2 = .error e →
      process_turn dllm allm fetch store input = store ∧
      s2.chat_history = (store.getD get_initial_state).chat_history := by
  intro dllm allm fetch store input s2 e h2 ha
  constructor
  · have hpt : process_turn dllm allm fetch store input =
        match run_graph dllm allm fetch
            { get_initial_state with
                chat_history := (store.getD get_initial_state).chat_history,
                user_input := input } with
        | .error _ => store
        | .ok s' => some s' := rfl
    have hg : run_graph dllm allm fetch
        { get_initial_state with
            chat_history := (store.getD get_initial_state).chat_history,
            user_input := input } = .error e := by
      unfold run_graph
      rw [h2]
      exact ha
    rw [hpt, hg]
  · obtain ⟨t, j, r, rfl⟩ := run_to_answer_ok_state _ _ _ _ h2
    rfl

/-- Witness for C2: a concrete failing answer model leaves the stored
two-entry history untouched. -/
theorem C2_witness :
    run_to_answer llmNone fetchFail
        { get_initial_state with
            chat_history := [⟨.human, "早"⟩, ⟨.ai, "你好"⟩],
            user_input := "hi" } =
      .ok { get_initial_state with
              chat_history := [⟨.human, "早"⟩, ⟨.ai, "你好"⟩],
              user_input := "hi" } ∧
    answer_node llmAnswerFail
        { get_initial_state with
            chat_history := [⟨.human, "早"⟩, ⟨.ai, "你好"⟩],
            user_input := "hi" } = .error "model call failed" ∧
    process_turn llmNone llmAnswerFail fetchFail storeAB "hi" = storeAB ∧
    ({ get_initial_state with
         chat_history := [⟨.human, "早"⟩, ⟨.ai, "你好"⟩],
         user_input := "hi" } : AgentState).chat_history =
      [⟨.human, "早"⟩, ⟨.ai, "你好"⟩] :=
  ⟨rfl, rfl,
   (C2_answer_failure_preserves_checkpoint llmNone llmAnswerFail fetchFail
     storeAB "hi" _ "model call failed" rfl rfl).1,
   (C2_answer_failure_preserves_checkpoint llmNone llmAnswerFail fetchFail
     storeAB "hi" _ "model call failed" rfl rfl).2⟩

/-- C1 counterexample: the Decision Stage performs no registry
validation — on a model reply naming `foo`, `think_node` emits
`tool_name = "foo"`, which is not registered. -/
theorem C1_counterexample :
    think_node llmFoo stHi =
      .ok { stHi with tool_name := "foo", tool_input := .obj [] } ∧
    lookupCap (tools fetchFail) "foo" = none ∧
    ("foo" : String) ≠ "" :=
  ⟨rfl, rfl, by decide⟩

/-- C1 as amended: the Decision Stage passes any string `tool_name` the
model returns through unvalidated (stripped only); a name outside the
registry is detected at tool-execution time, where it yields the
unknown-tool text instead of a decision-time error. -/
theorem C1_unregistered_resolved_at_execution :
    (∀ (llm : String → Except String String) (s : AgentState)
        (raw : String) (fields : List (String × Json)) (tn : String),
      pyStrip s.user_input ≠ "" →
      llm (pyStrip s.user_input) = .ok raw →
      loads (pyStrip raw) = some (.obj fields) →
      objGetD fields "tool_name" (.str "") = .str tn →
        think_node llm s =
          .ok { s with
                  tool_name := pyStrip tn,
                  tool_input := objGetD fields "tool_input" (.obj []) }) ∧
    (∀ (fetch : String → Except String WeatherResp) (s : AgentState),
      lookupCap (tools fetch) s.tool_name = none →
        (tool_node fetch s).tool_result = "未知工具：" ++ s.tool_name) := by
  constructor
  · intro llm s raw fields tn hne hllm hloads hget
    unfold think_node
    rw [if_neg hne]
    simp only [hllm, hloads, hget]
  · intro fetch s h
    show (tool_nodeWith (tools fetch) s).tool_result = _
    rw [tool_nodeWith_unknown (tools fetch) s h]

/-- Witness for C1's amended statement at the `foo` decision. -/
theorem C1_witness :
    think_node llmFoo stHi =
      .ok { stHi with tool_name := "foo", tool_input := .obj [] } ∧
    (tool_node fetchFail { stHi with
        tool_name := "foo",
        tool_input := .obj [] }).tool_result = "未知工具：" ++ "foo" :=
  ⟨by
    have h := C1_unregistered_resolved_at_execution.1 llmFoo stHi
      "\x7b\"tool_name\":\"foo\",\"tool_input\":\x7b\x7d\x7d"
      [("tool_name", .str "foo"), ("tool_input", .obj [])] "foo"
      (by decide) rfl rfl rfl
    exact h,
   C1_unregistered_resolved_at_execution.2 fetchFail _ rfl⟩

/-- C4 counterexample: a reply that parses to an object carrying a
number under `tool_name` is structurally invalid, yet the Decision
Stage raises (`.strip()` on a non-string, outside the `try`) instead of
returning the empty decision. -/
theorem C4_counterexample :
    loads (pyStrip "\x7b\"tool_name\": 1, \"tool_input\": \x7b\x7d\x7d") =
      some (.obj [("tool_name", .num 1), ("tool_input", .obj [])]) ∧
    think_node llmBadType stHi =
      .error "AttributeError: object has no attribute strip" :=
  ⟨rfl, rfl⟩

/-- C4 as amended: a model-call failure, an unparsable reply, or a
parsed object missing the keys all degrade to the empty decision; but a
reply that parses to a non-object, or to an object whose `tool_name`
value is not a string, raises out of the Decision Stage and fails the
turn (and `tool_input`'s type is not validated at all). -/
theorem C4_parse_failure_degrades :
    (∀ (llm : String → Except String String) (s : AgentState) (e : String),
      pyStrip s.user_input ≠ "" →
      llm (pyStrip s.user_input) = .error e →
        think_node llm s =
          .ok { s with tool_name := "", tool_input := .obj [] }) ∧
    (∀ (llm : String → Except String String) (s : AgentState)
        (raw : String),
      pyStrip s.user_input ≠ "" →
      llm (pyStrip s.user_input) = .ok raw →
      loads (pyStrip raw) = none →
        think_node llm s =
          .ok { s with tool_name := "", tool_input := .obj [] }) ∧
    (∀ (llm : String → Except String String) (s : AgentState)
        (raw : String),
      pyStrip s.user_input ≠ "" →
      llm (pyStrip s.user_input) = .ok raw →
      loads (pyStrip raw) = some (.obj []) →
        think_node llm s =
          .ok { s with tool_name := "", tool_input := .obj [] }) ∧
    (∀ (llm : String → Except String String) (s : AgentState)
        (raw : String) (v : Json),
      pyStrip s.user_input ≠ "" →
      llm (pyStrip s.user_input) = .ok raw →
      loads (pyStrip raw) = some v →
      (∀ fs : List (String × Json), v ≠ .obj fs) →
        think_node llm s =
          .error "AttributeError: object has no attribute get") ∧
    (∀ (llm : String → Except String String) (s : AgentState)
        (raw : String) (fields : List (String × Json)) (v : Json),
      pyStrip s.user_input ≠ "" →
      llm (pyStrip s.user_input) = .ok raw →
      loads (pyStrip raw) = some (.obj fields) →
      objGetD fields "tool_name" (.str "") = v →
      (∀ t : String, v ≠ .str t) →
        think_node llm s =
          .error "AttributeError: object has no attribute strip") := by
  refine ⟨?_, ?_, ?_, ?_, ?_⟩
  · intro llm s e hne hllm
    unfold think_node
    rw [if_neg hne]
    simp only [hllm]
    rfl
  · intro llm s raw hne hllm hloads
    unfold think_node
    rw [if_neg hne]
    simp only [hllm, hloads]
    rfl
  · intro llm s raw hne hllm hloads
    unfold think_node
    rw [if_neg hne]
    simp only [hllm, hloads]
    rfl
  · intro llm s raw v hne hllm hloads hv
    unfold think_node
    rw [if_neg hne]
    simp only [hllm, hloads]
  · intro llm s raw fields v hne hllm hloads hget hv
    unfold think_node
    rw [if_neg hne]
    simp only [hllm, hloads, hget]

/-- Witness for C4's amended statement: one concrete input per
branch. -/
theorem C4_witness :
    think_node llmNone stHi =
      .ok { stHi with tool_name := "", tool_input := .obj [] } ∧
    think_node llmJunk stHi =
      .ok { stHi with tool_name := "", tool_input := .obj [] } ∧
    think_node llmEmptyObj stHi =
      .ok { stHi with tool_name := "", tool_input := .obj [] } ∧
    think_node llmNum stHi =
      .error "AttributeError: object has no attribute get" ∧
    think_node llmBadType stHi =
      .error "AttributeError: object has no attribute strip" :=
  ⟨C4_parse_failure_degrades.1 llmNone stHi "api unavailable"
     (by decide) rfl,
   C4_parse_failure_degrades.2.1 llmJunk stHi "not json" (by decide) rfl
     rfl,
   C4_parse_failure_degrades.2.2.1 llmEmptyObj stHi "\x7b\x7d" (by decide) rfl
     rfl,
   C4_parse_failure_degrades.2.2.2.1 llmNum stHi "5" (.num 5) (by decide)
     rfl rfl (fun fs h => Json.noConfusion h),
   C4_parse_failure_degrades.2.2.2.2 llmBadType stHi
     "\x7b\"tool_name\": 1, \"tool_input\": \x7b\x7d\x7d"
     [("tool_name", .num 1), ("tool_input", .obj [])] (.num 1) (by decide)
     rfl rfl rfl (fun t h => Json.noConfusion h)⟩

/-- C3 counterexample: `answer_node` has no content-based
de-duplication — applying the stage twice with the same answer appends
the identical user/assistant pair twice (history grows to four entries,
not two). -/
theorem C3_counterexample :
    (answer_node llmAnswerA stHi).bind (answer_node llmAnswerA) =
      .ok { stHi with
              final_answer := "好的",
              chat_history := [⟨.human, "hi"⟩, ⟨.ai, "好的"⟩,
                               ⟨.human, "hi"⟩, ⟨.ai, "好的"⟩] } := rfl

/-- C3 as amended: a successful Answer Synthesis on non-blank input
appends exactly one user and one assistant entry per application, with
no duplicate check of any kind in the stage; the content-equality
de-duplication (of assistant entries only) exists solely in the day1
driver loop's history update. -/
theorem C3_append_per_application :
    (∀ (allm : String → String → List Msg → Except String String)
        (s s' : AgentState),
      pyStrip s.user_input ≠ "" →
      answer_node allm s = .ok s' →
        s'.chat_history = s.chat_history ++
          [⟨.human, pyStrip s.user_input⟩, ⟨.ai, s'.final_answer⟩]) ∧
    (∀ (hist : List Msg) (reply : String),
      (∃ m ∈ hist, m.role = .ai ∧ m.content = reply) →
        day1_append_reply hist reply = hist) := by
  constructor
  · intro allm s s' hne h
    rcases answer_node_ok_cases allm s s' h with ⟨he, _⟩ | ⟨_, ans, _, rfl⟩
    · exact absurd he hne
    · rfl
  · intro hist reply h
    unfold day1_append_reply
    rw [if_pos]
    obtain ⟨m, hm, hrole, hcontent⟩ := h
    refine List.any_eq_true.mpr ⟨m, hm, ?_⟩
    simp [hrole, hcontent]

/-- Witness for C3's amended statement: the same concrete double
application, and the day1 filter declining a duplicate. -/
theorem C3_witness :
    ({ stHi with
         final_answer := "好的",
         chat_history :=
           [⟨.human, "hi"⟩, ⟨.ai, "好的"⟩] } : AgentState).chat_history =
      stHi.chat_history ++ [⟨.human, pyStrip stHi.user_input⟩,
        ⟨.ai, ({ stHi with
                   final_answer := "好的",
                   chat_history := [⟨.human, "hi"⟩,
                     ⟨.ai, "好的"⟩] } : AgentState).final_answer⟩] ∧
    day1_append_reply [⟨.human, "hi"⟩, ⟨.ai, "好的"⟩] "好的" =
      [⟨.human, "hi"⟩, ⟨.ai, "好的"⟩] :=
  ⟨C3_append_per_application.1 llmAnswerA stHi _ (by decide) rfl,
   C3_append_per_application.2 [⟨.human, "hi"⟩, ⟨.ai, "好的"⟩] "好的"
     ⟨⟨.ai, "好的"⟩, by decide, rfl, rfl⟩⟩

/-- C5 counterexample: an empty-input turn completes successfully (the
clarification answer is committed) yet adds nothing to `chat_history`,
so after `N = 1` successfully completed turns the history length is `0`,
not `2 × N`. -/
theorem C5_counterexample :
    process_turn llmNone llmAnswerA fetchFail none "" =
      some { get_initial_state with final_answer := clarifyAnswer } ∧
    ({ get_initial_state with
         final_answer := clarifyAnswer } : AgentState).chat_history.length ≠
      2 * 1 :=
  ⟨rfl, by decide⟩

/-- C5 as amended: after `N` successfully completed turns with
non-blank `user_input`, the history has grown by exactly `2 × N`
entries — one user and one assistant entry per turn, in chronological
(turn) order. -/
theorem C5_history_two_per_nonblank_turn :
    ∀ (dllm : String → Except String String)
      (allm : String → String → List Msg → Except String String)
      (fetch : String → Except String WeatherResp) (inputs : List String)
      (hist hist' : List Msg),
      (∀ i ∈ inputs, pyStrip i ≠ "") →
      run_turns dllm allm fetch hist inputs = .ok hist' →
      ∃ answers : List String, answers.length = inputs.length ∧
        hist' = hist ++
          (((inputs.map pyStrip).zip answers).flatMap
            fun p => [⟨.human, p.1⟩, ⟨.ai, p.2⟩]) ∧
        hist'.length = hist.length + 2 * inputs.length := by
  intro dllm allm fetch inputs
  induction inputs with
  | nil =>
    intro hist hist' _ h
    injection (show Except.ok hist = .ok hist' from h) with h2
    subst h2
    exact ⟨[], rfl, by simp, by simp⟩
  | cons i rest ih =>
    intro hist hist' hne h
    have hne_i : pyStrip i ≠ "" := hne i (List.mem_cons_self i rest)
    have h0 : run_turns dllm allm fetch hist (i :: rest) =
        match run_graph dllm allm fetch
            { get_initial_state with
                chat_history := hist, user_input := i } with
        | .error e => .error e
        | .ok s' => run_turns dllm allm fetch s'.chat_history rest := rfl
    rw [h0] at h
    cases hg : run_graph dllm allm fetch
        { get_initial_state with chat_history := hist, user_input := i } with
    | error e => rw [hg] at h; cases h
    | ok s1 =>
      rw [hg] at h
      obtain ⟨ans, hship⟩ := run_graph_ok_append dllm allm fetch _ _ hne_i hg
      obtain ⟨answers, hlen, hrest, _⟩ :=
        ih s1.chat_history hist'
          (fun j hj => hne j (List.mem_cons_of_mem _ hj)) h
      have hcons : hist' = hist ++
          ((((i :: rest).map pyStrip).zip (ans :: answers)).flatMap
            fun p => [⟨.human, p.1⟩, ⟨.ai, p.2⟩]) := by
        rw [hrest, hship]
        simp [List.append_assoc]
      refine ⟨ans :: answers, by simp [hlen], hcons, ?_⟩
      rw [hcons, List.length_append, pairs_length, List.length_zip]
      simp [hlen]

/-- Witness for C5's amended statement: two committed no-tool turns
grow an empty history to four entries in order. -/
theorem C5_witness :
    (∀ i ∈ (["你好", "再见"] : List String), pyStrip i ≠ "") ∧
    run_turns llmNone llmAnswerA fetchFail [] ["你好", "再见"] =
      .ok [⟨.human, "你好"⟩, ⟨.ai, "好的"⟩,
           ⟨.human, "再见"⟩, ⟨.ai, "好的"⟩] ∧
    (∃ answers : List String,
      answers.length = (["你好", "再见"] : List String).length ∧
      ([⟨.human, "你好"⟩, ⟨.ai, "好的"⟩,
        ⟨.human, "再见"⟩, ⟨.ai, "好的"⟩] : List Msg) = [] ++
        ((((["你好", "再见"] : List String).map pyStrip).zip
            answers).flatMap fun p => [⟨.human, p.1⟩, ⟨.ai, p.2⟩]) ∧
      ([⟨.human, "你好"⟩, ⟨.ai, "好的"⟩,
        ⟨.human, "再见"⟩, ⟨.ai, "好的"⟩] : List Msg).length =
        ([] : List Msg).length +
          2 * (["你好", "再见"] : List String).length) :=
  ⟨by decide, rfl,
   C5_history_two_per_nonblank_turn llmNone llmAnswerA fetchFail
     ["你好", "再见"] []
     [⟨.human, "你好"⟩, ⟨.ai, "好的"⟩, ⟨.human, "再见"⟩, ⟨.ai, "好的"⟩]
     (by decide) rfl⟩

/-- C8: the arithmetic evaluator is a pure function of the expression
string with no access to ambient names — an expression evaluating to a
value renders it in the success text, an expression the evaluator
rejects (including any one mentioning a name, i.e. containing a letter)
yields the execution-failed text, never an exception out of
`calculator`, and `1+2*3` yields `7`. -/
theorem C8_calculator_contract :
    (∀ (e : String) (v : PyNum), evalArith e = some v →
      calculator e = "计算结果：" ++ e ++ " = " ++ renderNum v) ∧
    (∀ e : String, evalArith e = none →
      calculator e = "计算失败：invalid expression") ∧
    calculator "1+2*3" = "计算结果：1+2*3 = 7" ∧
    calculator "1+" = "计算失败：invalid expression" ∧
    (∀ (e : String) (c : Char), c ∈ e.data → c.isAlpha = true →
      calculator e = "计算失败：invalid expression") := by
  refine ⟨?_, ?_, by decide, by decide, ?_⟩
  · intro e v h
    unfold calculator
    rw [h]
  · intro e h
    unfold calculator
    rw [h]
  · intro e c hc ha
    have hnone : evalArith e = none := by
      unfold evalArith
      cases ht : tokenizeArith (e.length + 1) e.toList with
      | none => rfl
      | some ts =>
        have hfa := tokenizeArith_no_alpha _ _ _ ht c hc
        rw [hfa] at ha
        exact Bool.noConfusion ha
    unfold calculator
    rw [hnone]

/-- Witness for C8 at concrete expressions: a product, a division by
zero, and an expression mentioning a name. -/
theorem C8_witness :
    evalArith "2*3" = some ⟨6, 1⟩ ∧
    calculator "2*3" = "计算结果：" ++ "2*3" ++ " = " ++ renderNum ⟨6, 1⟩ ∧
    evalArith "1/0" = none ∧
    calculator "1/0" = "计算失败：invalid expression" ∧
    ('a' ∈ ("a+1" : String).data ∧ Char.isAlpha 'a' = true) ∧
    calculator "a+1" = "计算失败：invalid expression" :=
  ⟨rfl,
   C8_calculator_contract.1 "2*3" ⟨6, 1⟩ rfl,
   rfl,
   C8_calculator_contract.2.1 "1/0" rfl,
   ⟨by decide, by decide⟩,
   C8_calculator_contract.2.2.2.2 "a+1" 'a' (by decide) (by decide)⟩

end Agent
